import Mathlib

/-!
Shallow embedding of the single source module markdown2artical.py.

The embedding covers, faithfully to the source code:
  - the inline text segmenter of add_styled_paragraph, lines 104 to 149,
    including the two citation-marker regexes and the two-level split by the
    printable-ASCII character class;
  - the reference drain of the level-1 heading branch for the references
    section, lines 675 to 679, and the footnote-definition list-item path,
    lines 757 to 773;
  - the mermaid conversion helper, lines 218 to 253, with its temporary-file
    bookkeeping, and the fenced-block failure path, lines 823 to 832;
  - the h1-driven state machine of markdown_to_word, lines 574 to 698, with
    its section creation, and the header and footer finalizer, lines 857 to 870;
  - the module-global ReferencesList, line 522, threaded explicitly;
  - the top-level driver, lines 878 to 898, as a function from the three
    failure conditions to the observable process outcome.

Machine reals of the source (point sizes, centimeter indents) are modelled as
rationals. Python regular expressions are modelled by equivalent greedy
parsers on character lists; the regexes involved never need backtracking to
an earlier branch point that could change the overall result, because every
star iteration consumes a full comma-digits or dash-digits chunk and the
characters at earlier backtrack positions can never equal the closing
bracket. The Python whitespace class is modelled by the six ASCII whitespace
characters.
-/

namespace M2A

/-- Font name constant from line 22 of the source. -/
def FONT_SONGTI : String := "宋体"

/-- Font name constant from line 23 of the source. -/
def FONT_HEITI : String := "黑体"

/-- Font name constant from line 24 of the source. -/
def FONT_KAITI : String := "楷体"

/-- Font name constant from line 25 of the source. -/
def FONT_TIMES_NEW_ROMAN : String := "Times New Roman"

/-- Point size constant from line 28 of the source. -/
def SIZE_THREE : ℚ := 16

/-- Point size constant from line 29 of the source. -/
def SIZE_SMALL_THREE : ℚ := 15

/-- Point size constant from line 30 of the source. -/
def SIZE_FOUR : ℚ := 14

/-- Point size constant from line 31 of the source. -/
def SIZE_SMALL_FOUR : ℚ := 12

/-- Point size constant from line 32 of the source. -/
def SIZE_FIVE : ℚ := 21 / 2

/-- Point size constant from line 33 of the source. -/
def SIZE_SMALL_FIVE : ℚ := 9

/-- The character class of the inner split on line 137 of the source:
letters, digits and every ASCII punctuation character, which is exactly the
printable ASCII range 33 to 126. -/
def isAsciiSymNoWs (c : Char) : Bool :=
  33 ≤ c.toNat && c.toNat ≤ 126

/-- Python whitespace, restricted to its six ASCII members. -/
def isPyWs (c : Char) : Bool :=
  c == ' ' || c == '\t' || c == '\n' || c == '\r' || c == '\x0b' || c == '\x0c'

/-- The character class of the outer split on line 106 of the source: the
inner class together with the whitespace class. -/
def isAsciiSym (c : Char) : Bool :=
  isAsciiSymNoWs c || isPyWs c

/-- Helper for groupRuns: accumulates the current maximal run whose
characters all have predicate value b. -/
def groupRunsAux (p : Char → Bool) : List Char → Bool → List Char → List (List Char)
  | [], _, acc => [acc.reverse]
  | c :: cs, b, acc =>
    if p c == b then groupRunsAux p cs b (c :: acc)
    else acc.reverse :: groupRunsAux p cs (p c) [c]

/-- Model of re.split with a single capturing group over a character class:
the list of maximal runs of characters agreeing on the class predicate, in
order, with the empty boundary strings already removed, exactly the
non-empty parts the source loop iterates over after its continue on empty
parts. -/
def groupRuns (p : Char → Bool) : List Char → List (List Char)
  | [] => []
  | c :: cs => groupRunsAux p cs (p c) [c]

/-- Model of the anchored regex of line 115 of the source: an opening
bracket, an optional hat, one or more digits, a closing bracket; returns the
digit group. The hat is optional, so this also matches a plain
single-number bracket. -/
def citationMatch (part : List Char) : Option (List Char) :=
  match part with
  | '[' :: rest =>
    let rest1 := if rest.head? == some '^' then rest.tail else rest
    let ds := rest1.takeWhile Char.isDigit
    if ds.isEmpty then none
    else if (rest1.dropWhile Char.isDigit).head? == some ']' then some ds
    else none
  | _ => none

/-- Greedy parser for the starred groups of the regex of line 116 of the
source: zero or more repetitions of the separator followed by one or more
digits. Structural in an explicit fuel so that the kernel can evaluate it;
the fuel is instantiated with the length of the list, which suffices since
every iteration consumes at least two characters. -/
def parseSepRunsFuel (sep : Char) : Nat → List Char → List Char × List Char
  | 0, l => ([], l)
  | fuel + 1, l =>
    if l.head? == some sep then
      let ds := l.tail.takeWhile Char.isDigit
      if ds.isEmpty then ([], l)
      else
        let pr := parseSepRunsFuel sep fuel (l.tail.dropWhile Char.isDigit)
        (sep :: (ds ++ pr.1), pr.2)
    else ([], l)

/-- Entry point of the starred-group parser. -/
def parseSepRuns (sep : Char) (l : List Char) : List Char × List Char :=
  parseSepRunsFuel sep l.length l

/-- Model of the anchored regex of line 116 of the source: an opening
bracket, digits, zero or more comma-digit groups, then zero or more
dash-digit groups, then a closing bracket; returns the middle group. -/
def refMatchInText (part : List Char) : Option (List Char) :=
  match part with
  | '[' :: rest =>
    let ds := rest.takeWhile Char.isDigit
    if ds.isEmpty then none
    else
      let r1 := rest.dropWhile Char.isDigit
      let pc := parseSepRuns ',' r1
      let pd := parseSepRuns '-' pc.2
      if pd.2.head? == some ']' then some (ds ++ pc.1 ++ pd.1) else none
  | _ => none

/-- One output run as produced by doc.add_paragraph().add_run() and
set_run_font: the fields set by set_run_font on lines 48 to 56 of the
source, plus the superscript flag of line 122. Fields left at none model a
run added without set_run_font. -/
structure Run where
  text : String
  eastAsiaFont : Option String := none
  asciiFont : Option String := none
  sizePt : Option ℚ := none
  bold : Bool := false
  superscript : Bool := false
deriving DecidableEq

/-- The full-match test of line 112 of the source. -/
def isAsciiPart (part : List Char) : Bool :=
  !part.isEmpty && part.all isAsciiSym

/-- The full-match test of line 141 of the source. -/
def isAsciiNoWsPart (part : List Char) : Bool :=
  !part.isEmpty && part.all isAsciiSymNoWs

/-- The font selection of lines 133, 143 and 147 of the source: the heading
font override when in heading mode and an override is supplied, otherwise
the given default. Python truthiness of the override string is modelled by
Option. -/
def headingFontOr (isHeading : Bool) (hov : Option String) (dflt : String) : String :=
  if isHeading && hov.isSome then hov.getD dflt else dflt

/-- The run emitted by either citation branch, lines 120 to 122 and 125 to
126 of the source: the bracketed digit group with the default East Asian
font and Times as ASCII font; the superscript flag is set by the first
branch only. -/
def citationRun (dEA : String) (sz : ℚ) (bd : Bool) (g : List Char)
    (sup : Bool) : Run :=
  { text := "[" ++ g.asString ++ "]", eastAsiaFont := some dEA,
    asciiFont := some FONT_TIMES_NEW_ROMAN, sizePt := some sz, bold := bd,
    superscript := sup }

/-- A run taking the ASCII font selection of lines 132 to 134 and 142 to
144 of the source. -/
def asciiRunOf (isHeading : Bool) (hov : Option String) (dEA dAsc : String)
    (sz : ℚ) (bd : Bool) (l : List Char) : Run :=
  { text := l.asString, eastAsiaFont := some dEA,
    asciiFont := some (headingFontOr isHeading hov dAsc), sizePt := some sz,
    bold := bd, superscript := false }

/-- A run taking the script font selection of lines 146 to 148 of the
source. -/
def scriptRunOf (isHeading : Bool) (hov : Option String) (dEA dAsc : String)
    (sz : ℚ) (bd : Bool) (l : List Char) : Run :=
  { text := l.asString, eastAsiaFont := some (headingFontOr isHeading hov dEA),
    asciiFont := some dAsc, sizePt := some sz, bold := bd,
    superscript := false }

/-- Processing of one sub-part of the inner split, lines 138 to 148 of the
source. -/
def emitSub (isHeading : Bool) (hov : Option String) (dEA dAsc : String)
    (sz : ℚ) (bd : Bool) (sub : List Char) : List Run :=
  if sub.isEmpty then []
  else if isAsciiNoWsPart sub then [asciiRunOf isHeading hov dEA dAsc sz bd sub]
  else [scriptRunOf isHeading hov dEA dAsc sz bd sub]

/-- The two non-citation branches of the part loop, lines 131 to 148 of the
source: a full-class ASCII part becomes one run; anything else is re-split
by the inner class and each sub-part processed by emitSub. -/
def emitFallthrough (isHeading : Bool) (hov : Option String) (dEA dAsc : String)
    (sz : ℚ) (bd : Bool) (part : List Char) : List Run :=
  if isAsciiPart part then [asciiRunOf isHeading hov dEA dAsc sz bd part]
  else (groupRuns isAsciiSymNoWs part).flatMap (emitSub isHeading hov dEA dAsc sz bd)

/-- Processing of one part of the outer split, lines 108 to 148 of the
source: the superscript-citation branch, the inline multi-number citation
branch guarded by the heading flag, then the plain ASCII branch and the
script branch with its inner re-split. The two citation branches emit only
the bracketed number and drop the remainder of the part, as the source
does. -/
def emitPart (isHeading : Bool) (hov : Option String) (dEA dAsc : String)
    (sz : ℚ) (bd : Bool) (part : List Char) : List Run :=
  if part.isEmpty then []
  else
    match citationMatch part with
    | some ds => [citationRun dEA sz bd ds true]
    | none =>
      match refMatchInText part, isHeading with
      | some g, false => [citationRun dEA sz bd g false]
      | _, _ => emitFallthrough isHeading hov dEA dAsc sz bd part

/-- Paragraph alignment values used by the source. -/
inductive Alignment where
  | left
  | center
  | right
  | justify
deriving DecidableEq

/-- One output paragraph: its runs and the formatting fields that the
verified properties inspect, namely alignment, first-line indent and left
indent in centimeters. set_paragraph_formatting never touches the left
indent, so addStyledParagraph always leaves it at none; the two call sites
that set it do so on the returned paragraph. -/
structure Paragraph where
  runs : List Run
  alignment : Alignment
  firstLineIndentCm : Option ℚ
  leftIndentCm : Option ℚ
deriving DecidableEq

/-- Model of add_styled_paragraph, lines 87 to 149 of the source. The
first-line indent follows the Python truthiness test of line 79: a zero
value clears the indent like an absent one. In reference mode the text is
added verbatim as a single run without set_run_font, line 101; otherwise
the text is split by the outer class and each part processed by emitPart. -/
def addStyledParagraph (isReference isHeading : Bool) (hov : Option String)
    (dEA dAsc : String) (sz : ℚ) (bd : Bool)
    (alignment : Alignment) (firstLineIndentCm : Option ℚ)
    (textContent : String) : Paragraph :=
  let fli : Option ℚ :=
    match firstLineIndentCm with
    | some v => if v = 0 then none else some v
    | none => none
  let runs : List Run :=
    if isReference then [{ text := textContent }]
    else (groupRuns isAsciiSym textContent.toList).flatMap
      (emitPart isHeading hov dEA dAsc sz bd)
  { runs := runs, alignment := alignment, firstLineIndentCm := fli,
    leftIndentCm := none }

/-- Observation function: the concatenation of the texts of the runs of a
paragraph, in order. -/
def paragraphText (p : Paragraph) : String :=
  List.asString (p.runs.flatMap fun r => r.text.toList)

/-- Model of the reference drain of lines 675 to 679 of the source: for each
entry of the collected list, in order, a reference-mode styled paragraph
with text open-bracket index-plus-one close-bracket space body, left
aligned, with a first-line indent argument of 0.7 centimeters. -/
def refSectionParagraphs (refs : List String) : List Paragraph :=
  refs.enum.map fun ir =>
    addStyledParagraph true false none FONT_SONGTI FONT_TIMES_NEW_ROMAN
      SIZE_SMALL_FOUR false Alignment.left (some (7 / 10))
      ("[" ++ toString (ir.1 + 1) ++ "] " ++ ir.2)

/-- Model of the footnote-definition list-item path of lines 757 to 773 of
the source: a styled paragraph built from the bracketed number and the
body, then a left indent of 0.7 centimeters and a first-line indent of
minus 0.7 centimeters set on the returned paragraph. -/
def footnoteDefListItemParagraph (refNum refContent : String) : Paragraph :=
  let p := addStyledParagraph false false none FONT_SONGTI FONT_TIMES_NEW_ROMAN
    SIZE_SMALL_FOUR false Alignment.left none
    ("[" ++ refNum ++ "] " ++ refContent)
  { p with leftIndentCm := some (7 / 10), firstLineIndentCm := some (-(7 / 10)) }

/-- Model of add_heading for level 1, lines 157 to 166 of the source: the
text is split on spaces, the first word plus a space (two spaces when the
text has no space) forms the chapter-number run in Heiti with Times ASCII,
and the rest joined by spaces forms the title run in Heiti. -/
def addHeading1 (text : String) : Paragraph :=
  let ws := text.splitOn " "
  let first := ws.headD ""
  let hasSpace := ws.length > 1
  let runChapNum : Run :=
    { text := first ++ (if hasSpace then " " else "  "),
      eastAsiaFont := some FONT_HEITI, asciiFont := some FONT_TIMES_NEW_ROMAN,
      sizePt := some SIZE_THREE, bold := true, superscript := false }
  let runTitle : Run :=
    { text := String.intercalate " " ws.tail,
      eastAsiaFont := some FONT_HEITI, asciiFont := some FONT_HEITI,
      sizePt := some SIZE_THREE, bold := true, superscript := false }
  { runs := [runChapNum, runTitle], alignment := Alignment.center,
    firstLineIndentCm := none, leftIndentCm := none }

/-- One block-level unit of the output document. Paragraphs carry their
model; the table-of-contents placeholder stands for the TOC title paragraph
and TOC field of add_toc_placeholder; the page-break paragraph models
doc.add_paragraph().add_run().add_break(PAGE); an image block models
add_picture with its width in centimeters. -/
inductive Block where
  | par (p : Paragraph)
  | tocPlaceholder
  | pageBreakPar
  | image (path : String) (widthCm : ℚ)
deriving DecidableEq

/-- The caption paragraph of add_image_with_caption, lines 291 to 298 of the
source: figure number run in Kaiti with Times ASCII, caption run in Kaiti,
both at size five, centered. -/
def captionParagraph (figNumText captionText : String) : Paragraph :=
  { runs :=
      [{ text := figNumText ++ " ", eastAsiaFont := some FONT_KAITI,
         asciiFont := some FONT_TIMES_NEW_ROMAN, sizePt := some SIZE_FIVE,
         bold := false, superscript := false },
       { text := captionText, eastAsiaFont := some FONT_KAITI,
         asciiFont := some FONT_KAITI, sizePt := some SIZE_FIVE,
         bold := false, superscript := false }],
    alignment := Alignment.center, firstLineIndentCm := none,
    leftIndentCm := none }

/-- The successful-embed path of add_image_with_caption, lines 270 to 301 of
the source: a centered image at fixed width 15 centimeters, the caption
paragraph, then an empty spacer styled paragraph. -/
def addImageWithCaption (imagePath captionText figNumText : String) : List Block :=
  [Block.image imagePath 15,
   Block.par (captionParagraph figNumText captionText),
   Block.par (addStyledParagraph false false none FONT_SONGTI
     FONT_TIMES_NEW_ROMAN SIZE_SMALL_FOUR false Alignment.left none "")]

/-- Outcome of the external mermaid renderer invocation: success, or one of
the three failure modes caught on lines 241 to 250 of the source. -/
inductive RenderOutcome where
  | ok
  | calledProcessError
  | timeoutExpired
  | fileNotFound
deriving DecidableEq

/-- Model of convert_mermaid_to_image_mmdc, lines 218 to 253 of the source.
The state is the list of existing temporary files. The function writes the
mermaid source file, invokes the renderer, and in a finally block removes
the source file. Per the opaque-converter contract, a failed invocation
produces no output image; a successful one creates the image file whose
name swaps the mmd suffix for png. -/
def convertMermaidToImageMmdc (outcome : RenderOutcome) (mmdName : String)
    (files : List String) : Option String × List String :=
  let mmdFile := mmdName ++ ".mmd"
  let imageFilePath := mmdName ++ ".png"
  let files1 := files ++ [mmdFile]
  match outcome with
  | RenderOutcome.ok => (some imageFilePath, (files1 ++ [imageFilePath]).erase mmdFile)
  | _ => (none, files1.erase mmdFile)

/-- The failure placeholder text of line 830 of the source. -/
def mermaidFailureText (figNumText captionContent : String) : String :=
  "[Failed to render Mermaid diagram: " ++ figNumText ++ " " ++ captionContent ++ "]"

/-- The mermaid rendering-and-embedding step of lines 823 to 832 of the
source, entered when the caption comment matched: on success the image is
embedded with its caption and the temporary image removed; on failure a
placeholder styled paragraph is emitted and no further file operation
happens. Returns the emitted blocks and the resulting temporary-file
state. -/
def processMermaidRender (outcome : RenderOutcome) (figNumText captionContent : String)
    (mmdName : String) (files : List String) : List Block × List String :=
  match convertMermaidToImageMmdc outcome mmdName files with
  | (some imageFile, fs) =>
    (addImageWithCaption imageFile captionContent figNumText, fs.erase imageFile)
  | (none, fs) =>
    ([Block.par (addStyledParagraph false false none FONT_SONGTI
       FONT_TIMES_NEW_ROMAN SIZE_SMALL_FOUR false Alignment.left none
       (mermaidFailureText figNumText captionContent))], fs)

/-- Input tree node as the traversal sees soup.children: a whitespace text
node with no tag name, a level-1 heading, or a plain text paragraph. These
are the node kinds exercised by the verified properties; the remaining
branches of the traversal (levels 2 to 5, lists, tables, fenced blocks,
rules) are independent emission paths that do not touch the section
state. -/
inductive Node where
  | navString (s : String)
  | h1 (t : String)
  | para (t : String)
deriving DecidableEq

/-- True when the node is a level-1 heading, the condition of the inner
consumption loops on lines 595 and 622 of the source. -/
def isH1 : Node → Bool
  | Node.h1 _ => true
  | _ => false

/-- Model of Python str.strip on the text of a node, as produced by
get_text with strip set. -/
def pyStripList (l : List Char) : List Char :=
  ((l.dropWhile isPyWs).reverse.dropWhile isPyWs).reverse

/-- The paragraph text of a node, stripped, when the node is a paragraph. -/
def paraTextStripped : Node → Option (List Char)
  | Node.para t => some (pyStripList t.toList)
  | _ => none

/-- The single CJK numeral class of the chapter regex on line 648 of the
source. -/
def isCnNumeral (c : Char) : Bool :=
  c == '一' || c == '二' || c == '三' || c == '四' || c == '五' || c == '六' ||
  c == '七' || c == '八' || c == '九' || c == '十' || c == '百'

/-- Model of the chapter regex of line 648 of the source: the chapter
marker character, one or more CJK numerals, the chapter character; returns
the first group. -/
def chapMatch (t : String) : Option String :=
  match t.toList with
  | c :: rest =>
    if c == '第' then
      let nums := rest.takeWhile isCnNumeral
      if nums.isEmpty then none
      else if (rest.dropWhile isCnNumeral).head? == some '章' then
        some (('第' :: (nums ++ ['章'])).asString)
      else none
    else none
  | [] => none

/-- The branch condition of line 643 of the source: the title starts with
the chapter marker character and contains the chapter character. -/
def isChapterHeading (t : String) : Bool :=
  (t.toList.head? == some '第') && t.toList.contains '章'

/-- The Chinese abstract title paragraph of lines 588 to 591 of the
source. -/
def zhAbstractTitlePar : Paragraph :=
  { runs := [{ text := "摘   要", eastAsiaFont := some FONT_HEITI,
               asciiFont := some FONT_HEITI, sizePt := some SIZE_THREE,
               bold := true, superscript := false }],
    alignment := Alignment.center, firstLineIndentCm := none,
    leftIndentCm := none }

/-- The English abstract title paragraph of lines 615 to 618 of the
source. -/
def enAbstractTitlePar : Paragraph :=
  { runs := [{ text := "ABSTRACT", eastAsiaFont := some FONT_HEITI,
               asciiFont := some FONT_TIMES_NEW_ROMAN, sizePt := some SIZE_THREE,
               bold := true, superscript := false }],
    alignment := Alignment.center, firstLineIndentCm := none,
    leftIndentCm := none }

/-- An empty paragraph added by a bare doc.add_paragraph call, modelled
with default formatting. -/
def plainEmptyParagraph : Paragraph :=
  { runs := [], alignment := Alignment.left, firstLineIndentCm := none,
    leftIndentCm := none }

/-- Blocks emitted by the Chinese abstract branch, lines 586 to 604 of the
source: the title, one Kaiti size-four justified indented paragraph per
consumed paragraph node, then a blank paragraph. -/
def zhAbstractBlocks (consumed : List Node) : List Block :=
  [Block.par zhAbstractTitlePar] ++
  (consumed.filterMap paraTextStripped).map (fun s =>
    Block.par (addStyledParagraph false false none FONT_KAITI FONT_KAITI
      SIZE_FOUR false Alignment.justify (some (7 / 10)) s.asString)) ++
  [Block.par plainEmptyParagraph]

/-- Blocks emitted by the English abstract branch, lines 606 to 633 of the
source: a blank styled spacer, the title, one Times size-four justified
indented paragraph per consumed paragraph node, then the table-of-contents
placeholder. The section creation that follows is tracked separately. -/
def enAbstractBlocks (consumed : List Node) : List Block :=
  [Block.par (addStyledParagraph false false none FONT_SONGTI
     FONT_TIMES_NEW_ROMAN SIZE_SMALL_FOUR false Alignment.left none ""),
   Block.par enAbstractTitlePar] ++
  (consumed.filterMap paraTextStripped).map (fun s =>
    Block.par (addStyledParagraph false false none FONT_TIMES_NEW_ROMAN
      FONT_TIMES_NEW_ROMAN SIZE_FOUR false Alignment.justify (some (7 / 10))
      s.asString)) ++
  [Block.tocPlaceholder]

/-- The body-paragraph emission of lines 746 to 747 of the source. -/
def bodyParagraph (s : List Char) : Paragraph :=
  addStyledParagraph false false none FONT_SONGTI FONT_TIMES_NEW_ROMAN
    SIZE_SMALL_FOUR false Alignment.left (some (7 / 10)) s.asString

/-- The traversal state of markdown_to_word, lines 566 to 569 of the
source, together with the growing output: emitted blocks and the number of
document sections, which starts at one. -/
structure TravState where
  blocks : List Block
  numSections : Nat
  mainTextStarted : Bool
  currentChapterNumStr : String
  tocItems : List (Nat × String)
deriving DecidableEq

/-- The initial traversal state over a fresh Document. -/
def initialTravState : TravState :=
  { blocks := [], numSections := 1, mainTextStarted := false,
    currentChapterNumStr := "", tocItems := [] }

/-- Opens the main-matter section when it has not started yet, the
defensive fallback of lines 644 to 646, 660 to 662 and 682 to 684 of the
source. -/
def ensureMainSection (st : TravState) : TravState :=
  if st.mainTextStarted then st
  else { st with numSections := st.numSections + 1, mainTextStarted := true }

/-- The element loop of markdown_to_word, lines 574 to 851 of the source,
restricted to the modelled node kinds. Structural in an explicit fuel so
that the kernel can evaluate it; the fuel is instantiated with the length
of the element list, which suffices since every step consumes at least one
element. The inner loops of the two abstract branches consume following
nodes up to the next level-1 heading; the English abstract branch first
skips one element unconditionally, the idx increment of line 620 of the
source. An h1 whose title matches none of the five literal markers falls
through every branch and emits nothing. -/
def processElemsAux (refs : List String) : Nat → List Node → TravState → TravState
  | 0, _, st => st
  | _ + 1, [], st => st
  | fuel + 1, el :: rest, st =>
    match el with
    | Node.navString _ => processElemsAux refs fuel rest st
    | Node.para t =>
      let s := pyStripList t.toList
      if s.isEmpty then processElemsAux refs fuel rest st
      else processElemsAux refs fuel rest
        { st with blocks := st.blocks ++ [Block.par (bodyParagraph s)] }
    | Node.h1 t =>
      if t = "摘要" then
        let body := rest.takeWhile fun n => !isH1 n
        let rest2 := rest.dropWhile fun n => !isH1 n
        processElemsAux refs fuel rest2
          { st with blocks := st.blocks ++ zhAbstractBlocks body }
      else if t = "ABSTRACT" then
        let rest1 := rest.drop 1
        let body := rest1.takeWhile fun n => !isH1 n
        let rest2 := rest1.dropWhile fun n => !isH1 n
        processElemsAux refs fuel rest2
          { st with blocks := st.blocks ++ enAbstractBlocks body,
                    numSections := st.numSections + 1, mainTextStarted := true }
      else if isChapterHeading t then
        let st1 := ensureMainSection st
        let st2 :=
          match chapMatch t with
          | some num => { st1 with currentChapterNumStr := num }
          | none => st1
        processElemsAux refs fuel rest
          { st2 with blocks := st2.blocks ++ [Block.par (addHeading1 t)],
                     tocItems := st2.tocItems ++ [(1, t)] }
      else if t = "参考文献" then
        let st1 := ensureMainSection st
        processElemsAux refs fuel rest
          { st1 with
              blocks := st1.blocks ++
                [Block.pageBreakPar, Block.par (addHeading1 t)] ++
                (refSectionParagraphs refs).map Block.par,
              tocItems := st1.tocItems ++ [(1, t)] }
      else if t = "致谢" then
        let st1 := ensureMainSection st
        processElemsAux refs fuel rest
          { st1 with blocks := st1.blocks ++ [Block.par (addHeading1 t)],
                     tocItems := st1.tocItems ++ [(1, t)] }
      else processElemsAux refs fuel rest st

/-- Header and footer state of one document section, covering exactly the
fields the finalizer writes. -/
structure SectionHF where
  headerLinkedToPrevious : Bool
  headerText : Option String
  headerCentered : Bool
  headerBottomBorder : Bool
  footerLinkedToPrevious : Bool
  footerHasPageField : Bool
  footerCentered : Bool
  footerFontSizePt : Option ℚ
deriving DecidableEq

/-- The first section after the finalizer, lines 859 to 868 of the source:
header and footer relinked to the default and their paragraphs cleared. -/
def clearedFirstSection : SectionHF :=
  { headerLinkedToPrevious := true, headerText := none,
    headerCentered := false, headerBottomBorder := false,
    footerLinkedToPrevious := true, footerHasPageField := false,
    footerCentered := false, footerFontSizePt := none }

/-- A main-matter section after set_header_footer, lines 434 to 467 of the
source: unlinked header carrying the configured running title, centered,
with a single bottom border line; unlinked footer carrying a centered
dynamic PAGE field at small-five size. -/
def mainMatterSection (headerText : String) : SectionHF :=
  { headerLinkedToPrevious := false, headerText := some headerText,
    headerCentered := true, headerBottomBorder := true,
    footerLinkedToPrevious := false, footerHasPageField := true,
    footerCentered := true, footerFontSizePt := some SIZE_SMALL_FIVE }

/-- The finalizer loop of lines 857 to 870 of the source, applied to the n
sections the traversal created. -/
def finalizeSections (cfgHeader : String) (n : Nat) : List SectionHF :=
  (List.range n).map fun i =>
    if i = 0 then clearedFirstSection else mainMatterSection cfgHeader

/-- The output document as the verified properties observe it. -/
structure DocOutput where
  blocks : List Block
  sections : List SectionHF
deriving DecidableEq

/-- Model of markdown_to_word, lines 542 to 875 of the source, given the
reference list visible at drain time: run the element loop from the
initial state, then the finalizer. -/
def markdownToWordCore (refs : List String) (cfgHeader : String)
    (elements : List Node) : DocOutput :=
  let st := processElemsAux refs elements.length elements initialTravState
  { blocks := st.blocks, sections := finalizeSections cfgHeader st.numSections }

/-- One whole conversion as the process executes it: preprocess_html,
lines 524 to 539 of the source, appends the footnote definitions harvested
from the parsed tree to the module-global ReferencesList, which is passed
in as the first argument and is never cleared; the traversal then drains
the accumulated list. Returns the global list after the run together with
the document. -/
def conversionRun (globalRefs footnoteDefs : List String) (elements : List Node)
    (cfgHeader : String) : List String × DocOutput :=
  let g := globalRefs ++ footnoteDefs
  (g, markdownToWordCore g cfgHeader elements)

/-- Observable outcome of one process invocation of the script. -/
structure ProcResult where
  exitCode : Nat
  printedMissingInputError : Bool
  printedTrace : Bool
  failedAtImportUncaught : Bool
deriving DecidableEq

/-- Model of the module-level configuration load on lines 43 to 44 and the
driver on lines 878 to 898 of the source. The configuration file is opened
at import time, before argparse runs and before the input-file existence
check, so a missing configuration file raises an uncaught exception and
the interpreter exits with status one without printing the missing-input
message. A missing input file prints that message and exits with status
one. Any exception raised by the conversion is caught by the try-except of
lines 893 to 898, its trace is printed, and the script then falls off the
end, so the process exits with status zero. -/
def mainDriver (configFileExists mdFileExists conversionRaises : Bool) : ProcResult :=
  if !configFileExists then
    { exitCode := 1, printedMissingInputError := false, printedTrace := false,
      failedAtImportUncaught := true }
  else if !mdFileExists then
    { exitCode := 1, printedMissingInputError := true, printedTrace := false,
      failedAtImportUncaught := false }
  else if conversionRaises then
    { exitCode := 0, printedMissingInputError := false, printedTrace := true,
      failedAtImportUncaught := false }
  else
    { exitCode := 0, printedMissingInputError := false, printedTrace := false,
      failedAtImportUncaught := false }

/-- The concrete manuscript of the section property: one Chinese abstract
block, one English abstract block, one first-chapter heading, one
references heading, with the whitespace text nodes the HTML parser places
between sibling tags. -/
def manuscriptC8 : List Node :=
  [Node.navString "\n", Node.h1 "摘要", Node.navString "\n",
   Node.para "中文摘要内容。", Node.navString "\n",
   Node.h1 "ABSTRACT", Node.navString "\n",
   Node.para "English abstract body.", Node.navString "\n",
   Node.h1 "第一章 引言", Node.navString "\n",
   Node.h1 "参考文献", Node.navString "\n"]

/-- Observation helper: whether the first character list occurs as a
contiguous segment inside the second. -/
def listContainsSeg (needle : List Char) : List Char → Bool
  | [] => needle.isEmpty
  | c :: rest => needle.isPrefixOf (c :: rest) || listContainsSeg needle rest

theorem asString_toList (s : String) : s.toList.asString = s := rfl

theorem toList_asString (l : List Char) : l.asString.toList = l := rfl

theorem data_asString (l : List Char) : l.asString.data = l := rfl

theorem groupRunsAux_flatten (p : Char → Bool) :
    ∀ (l : List Char) (b : Bool) (acc : List Char),
      (groupRunsAux p l b acc).flatten = acc.reverse ++ l := by
  intro l
  induction l with
  | nil => intro b acc; simp [groupRunsAux]
  | cons c cs ihl =>
    intro b acc
    cases h : p c == b with
    | true => simp [groupRunsAux, h, ihl]
    | false => simp [groupRunsAux, h, ihl]

theorem groupRuns_flatten (p : Char → Bool) (l : List Char) :
    (groupRuns p l).flatten = l := by
  cases l with
  | nil => rfl
  | cons c cs => simpa using groupRunsAux_flatten p cs (p c) [c]

theorem flatMap_single_textChars (f : List Char → List Run) :
    ∀ (l : List (List Char)),
      (∀ sub ∈ l, (f sub).flatMap (fun r => r.text.toList) = sub) →
      (l.flatMap f).flatMap (fun r => r.text.toList) = l.flatten := by
  intro l
  induction l with
  | nil => intro _; rfl
  | cons a t ihl =>
    intro h
    have ha := h a (by simp)
    have ht := ihl fun s hs => h s (by simp [hs])
    show (f a ++ t.flatMap f).flatMap (fun r => r.text.toList) = a ++ t.flatten
    rw [List.flatMap_append]
    exact congrArg₂ (· ++ ·) ha ht

theorem emitSub_textChars (ihd : Bool) (hov : Option String) (ea asc : String)
    (sz : ℚ) (bd : Bool) (sub : List Char) :
    (emitSub ihd hov ea asc sz bd sub).flatMap (fun r => r.text.toList) = sub := by
  cases sub with
  | nil => rfl
  | cons d ds =>
    unfold emitSub
    cases isAsciiNoWsPart (d :: ds) <;>
      simp [asciiRunOf, scriptRunOf, data_asString]

theorem emitFallthrough_textChars (ihd : Bool) (hov : Option String)
    (ea asc : String) (sz : ℚ) (bd : Bool) (part : List Char) :
    (emitFallthrough ihd hov ea asc sz bd part).flatMap (fun r => r.text.toList)
      = part := by
  unfold emitFallthrough
  cases hap : isAsciiPart part with
  | true => simp [hap, asciiRunOf, data_asString]
  | false =>
    simp only [hap, Bool.false_eq_true, if_false]
    rw [flatMap_single_textChars _ _ fun sub _ =>
      emitSub_textChars ihd hov ea asc sz bd sub]
    exact groupRuns_flatten isAsciiSymNoWs part

theorem emitPart_eq_fallthrough (ihd : Bool) (hov : Option String)
    (ea asc : String) (sz : ℚ) (bd : Bool) (part : List Char)
    (hc : citationMatch part = none)
    (hr : ihd = true ∨ refMatchInText part = none) :
    emitPart ihd hov ea asc sz bd part
      = emitFallthrough ihd hov ea asc sz bd part := by
  cases part with
  | nil =>
    unfold emitPart emitFallthrough
    simp [isAsciiPart, groupRuns]
  | cons c cs =>
    unfold emitPart
    rw [hc]
    rcases hr with hih | hrm
    · subst hih
      cases hm : refMatchInText (c :: cs) <;> simp [hm]
    · rw [hrm]
      cases ihd <;> simp

theorem emitPart_textChars (ihd : Bool) (hov : Option String) (ea asc : String)
    (sz : ℚ) (bd : Bool) (part : List Char)
    (hc : citationMatch part = none)
    (hr : ihd = true ∨ refMatchInText part = none) :
    (emitPart ihd hov ea asc sz bd part).flatMap (fun r => r.text.toList) = part := by
  rw [emitPart_eq_fallthrough ihd hov ea asc sz bd part hc hr]
  exact emitFallthrough_textChars ihd hov ea asc sz bd part

theorem addStyledParagraph_roundTrip (ihd : Bool) (hov : Option String)
    (ea asc : String) (sz : ℚ) (bd : Bool) (al : Alignment) (fli : Option ℚ)
    (text : String)
    (h : ∀ part ∈ groupRuns isAsciiSym text.toList,
      citationMatch part = none ∧ (ihd = true ∨ refMatchInText part = none)) :
    paragraphText (addStyledParagraph false ihd hov ea asc sz bd al fli text)
      = text := by
  unfold paragraphText addStyledParagraph
  simp only [Bool.false_eq_true, if_false]
  rw [flatMap_single_textChars _ _ fun part hp =>
    emitPart_textChars ihd hov ea asc sz bd part (h part hp).1 (h part hp).2]
  rw [groupRuns_flatten]
  exact asString_toList text

theorem takeWhile_append_stop (q : Char → Bool) :
    ∀ (ds : List Char) (x : Char) (tail : List Char),
      (∀ c ∈ ds, q c = true) → q x = false →
      ((ds ++ x :: tail).takeWhile q = ds ∧
        (ds ++ x :: tail).dropWhile q = x :: tail) := by
  intro ds
  induction ds with
  | nil =>
    intro x tail _ hx
    constructor <;> simp [List.takeWhile, List.dropWhile, hx]
  | cons d ds2 ihd =>
    intro x tail hall hx
    have hd : q d = true := hall d (by simp)
    have hrec := ihd x tail (fun c hc => hall c (by simp [hc])) hx
    constructor <;> simp [List.takeWhile, List.dropWhile, hd, hrec.1, hrec.2]

theorem citationMatch_plain (ds tail : List Char) (hne : ds ≠ [])
    (hds : ∀ c ∈ ds, c.isDigit = true) :
    citationMatch ('[' :: (ds ++ ']' :: tail)) = some ds := by
  obtain ⟨d, ds2, rfl⟩ : ∃ d ds2, ds = d :: ds2 := by
    cases ds with
    | nil => exact absurd rfl hne
    | cons d ds2 => exact ⟨d, ds2, rfl⟩
  have hd : d.isDigit = true := hds d (by simp)
  have hdc : (d == '^') = false := by
    cases hb : d == '^' with
    | false => rfl
    | true =>
      exfalso
      have : d = '^' := by exact eq_of_beq hb
      subst this
      exact absurd hd (by decide)
  have hstop := takeWhile_append_stop Char.isDigit (d :: ds2) ']' tail hds (by decide)
  simp only [List.cons_append] at hstop
  unfold citationMatch
  simp [hdc, hstop.1, hstop.2, hd]

theorem citationMatch_hat (ds tail : List Char) (hne : ds ≠ [])
    (hds : ∀ c ∈ ds, c.isDigit = true) :
    citationMatch ('[' :: '^' :: (ds ++ ']' :: tail)) = some ds := by
  have hstop := takeWhile_append_stop Char.isDigit ds ']' tail hds (by decide)
  unfold citationMatch
  simp [hstop.1, hstop.2, List.isEmpty_iff, hne]

theorem emitPart_citation (ihd : Bool) (hov : Option String) (ea asc : String)
    (sz : ℚ) (bd : Bool) (part ds : List Char)
    (h : citationMatch part = some ds) :
    emitPart ihd hov ea asc sz bd part = [citationRun ea sz bd ds true] := by
  cases part with
  | nil => exact absurd h (by simp [citationMatch])
  | cons c cs =>
    unfold emitPart
    rw [h]
    simp

theorem paragraphText_reference (ihd : Bool) (hov : Option String)
    (ea asc : String) (sz : ℚ) (bd : Bool) (al : Alignment) (fli : Option ℚ)
    (t : String) :
    paragraphText (addStyledParagraph true ihd hov ea asc sz bd al fli t) = t := by
  show List.asString (t.toList ++ []) = t
  rw [List.append_nil]
  exact asString_toList t

theorem erase_append_singleton (m : String) :
    ∀ l : List String, m ∉ l → (l ++ [m]).erase m = l := by
  intro l
  induction l with
  | nil => intro _; simp
  | cons a t ihl =>
    intro h
    have hma : ¬(a == m) = true := by
      simp only [beq_iff_eq]
      intro hEq
      exact h (by simp [hEq])
    have ht := ihl fun hm => h (by simp [hm])
    simp only [List.cons_append, List.erase_cons]
    rw [if_neg hma, ht]

theorem refSectionParagraphs_texts (refs : List String) :
    (refSectionParagraphs refs).map paragraphText
      = refs.enum.map fun ir => "[" ++ toString (ir.1 + 1) ++ "] " ++ ir.2 := by
  unfold refSectionParagraphs
  rw [List.map_map]
  exact List.map_congr_left fun ir _ => paragraphText_reference false none
    FONT_SONGTI FONT_TIMES_NEW_ROMAN SIZE_SMALL_FOUR false Alignment.left
    (some (7 / 10)) ("[" ++ toString (ir.1 + 1) ++ "] " ++ ir.2)

/-- C1, counterexample: in body role, a segment consisting of the plain
single-number marker of the number 3 is emitted as the bracketed number
with the superscript flag SET, because the citation regex of line 115 of
the source makes the hat optional; the claim requires the flag unset. -/
theorem C1_counterexample :
    (addStyledParagraph false false none FONT_SONGTI FONT_TIMES_NEW_ROMAN
      SIZE_SMALL_FOUR false Alignment.left none "[3]").runs =
      [citationRun FONT_SONGTI SIZE_SMALL_FOUR false ['3'] true] ∧
    (citationRun FONT_SONGTI SIZE_SMALL_FOUR false ['3'] true).text = "[3]" ∧
    (citationRun FONT_SONGTI SIZE_SMALL_FOUR false ['3'] true).superscript = true :=
  ⟨by decide, by decide, rfl⟩

/-- C1, amended: in body role, a Latin-symbol segment beginning with a
plain bracketed single-number marker is emitted as a single run holding
just the bracketed number, with the superscript flag set, and the
remainder of the segment is dropped. -/
theorem C1_theorem (hov : Option String) (ea asc : String) (sz : ℚ) (bd : Bool)
    (ds tail : List Char) (hne : ds ≠ []) (hds : ∀ c ∈ ds, c.isDigit = true) :
    emitPart false hov ea asc sz bd ('[' :: (ds ++ ']' :: tail))
      = [citationRun ea sz bd ds true] :=
  emitPart_citation false hov ea asc sz bd _ ds (citationMatch_plain ds tail hne hds)

/-- C1, witness: the amended statement evaluated on the segment composed of
the marker of the number 3 followed by a space and a letter. -/
theorem C1_witness :
    (['3'] : List Char) ≠ [] ∧ (∀ c ∈ (['3'] : List Char), c.isDigit = true) ∧
    emitPart false none FONT_SONGTI FONT_TIMES_NEW_ROMAN SIZE_SMALL_FOUR false
        ('[' :: (['3'] ++ ']' :: [' ', 'x'])) =
      [citationRun FONT_SONGTI SIZE_SMALL_FOUR false ['3'] true] :=
  ⟨by decide, by decide,
    C1_theorem none FONT_SONGTI FONT_TIMES_NEW_ROMAN SIZE_SMALL_FOUR false ['3']
      [' ', 'x'] (by decide) (by decide)⟩

/-- C2, counterexample: on the body-role input consisting of the marker of
the number 1, a space and a letter, the concatenation of the emitted run
texts is just the bracketed number, not the original string, because the
citation branch drops the remainder of the segment. -/
theorem C2_counterexample :
    paragraphText (addStyledParagraph false false none FONT_SONGTI
        FONT_TIMES_NEW_ROMAN SIZE_SMALL_FOUR false Alignment.left (some (7 / 10))
        "[1] a") = "[1]" ∧
    ("[1]" : String) ≠ "[1] a" :=
  ⟨by decide, by decide⟩

/-- C2, amended: concatenating the texts of the emitted runs reproduces the
input exactly whenever no segment of the outer split begins with a
citation marker, that is whenever the citation regex fails on every part
and, outside heading role, the multi-number regex fails as well. -/
theorem C2_theorem (ihd : Bool) (hov : Option String) (ea asc : String)
    (sz : ℚ) (bd : Bool) (al : Alignment) (fli : Option ℚ) (text : String)
    (h : ∀ part ∈ groupRuns isAsciiSym text.toList,
      citationMatch part = none ∧ (ihd = true ∨ refMatchInText part = none)) :
    paragraphText (addStyledParagraph false ihd hov ea asc sz bd al fli text)
      = text :=
  addStyledParagraph_roundTrip ihd hov ea asc sz bd al fli text h

/-- C2, witness: the amended statement evaluated on a mixed script and
Latin input containing no citation marker. -/
theorem C2_witness :
    (∀ part ∈ groupRuns isAsciiSym ("你好 world, 混合文本 123!").toList,
      citationMatch part = none ∧
        ((false : Bool) = true ∨ refMatchInText part = none)) ∧
    paragraphText (addStyledParagraph false false none FONT_SONGTI
        FONT_TIMES_NEW_ROMAN SIZE_SMALL_FOUR false Alignment.left (some (7 / 10))
        "你好 world, 混合文本 123!") = "你好 world, 混合文本 123!" :=
  ⟨by decide, C2_theorem false none FONT_SONGTI FONT_TIMES_NEW_ROMAN
    SIZE_SMALL_FOUR false Alignment.left (some (7 / 10)) "你好 world, 混合文本 123!"
    (by decide)⟩

/-- C3, counterexample: in heading role, a segment consisting of the
hat-prefixed marker of the number 7 is emitted with the superscript flag
SET, because the superscript branch of line 118 of the source carries no
heading guard; the claim requires heading-role markers never to be
superscripted. -/
theorem C3_counterexample :
    (addStyledParagraph false true none FONT_HEITI FONT_TIMES_NEW_ROMAN
      SIZE_THREE true Alignment.center none "[^7]").runs =
      [citationRun FONT_HEITI SIZE_THREE true ['7'] true] ∧
    (citationRun FONT_HEITI SIZE_THREE true ['7'] true).superscript = true :=
  ⟨by decide, rfl⟩

/-- C3, amended: a hat-prefixed citation marker at the start of a
Latin-symbol segment yields a run holding the bracketed number with the
superscript flag set in EVERY role, heading role included; the remainder
of the segment is dropped. The body-role half of the original claim is the
instance at the false heading flag. -/
theorem C3_theorem (ihd : Bool) (hov : Option String) (ea asc : String)
    (sz : ℚ) (bd : Bool) (ds tail : List Char) (hne : ds ≠ [])
    (hds : ∀ c ∈ ds, c.isDigit = true) :
    emitPart ihd hov ea asc sz bd ('[' :: '^' :: (ds ++ ']' :: tail))
      = [citationRun ea sz bd ds true] :=
  emitPart_citation ihd hov ea asc sz bd _ ds (citationMatch_hat ds tail hne hds)

/-- C3, witness: the amended statement evaluated in heading role on the
hat-prefixed marker of the number 7. -/
theorem C3_witness :
    (['7'] : List Char) ≠ [] ∧ (∀ c ∈ (['7'] : List Char), c.isDigit = true) ∧
    emitPart true none FONT_HEITI FONT_HEITI SIZE_THREE true
        ('[' :: '^' :: (['7'] ++ ']' :: [])) =
      [citationRun FONT_HEITI SIZE_THREE true ['7'] true] :=
  ⟨by decide, by decide,
    C3_theorem true none FONT_HEITI FONT_HEITI SIZE_THREE true ['7'] []
      (by decide) (by decide)⟩

/-- C4, confirmed: with the run-global reference list empty at process
start, a run harvesting definitions A, B, C in encounter order drains them
at the references heading into paragraphs whose texts are the 1-based
bracket-numbered entries in that same order, independent of anything in
the body. -/
theorem C4_theorem (A B C cfg : String) :
    (conversionRun [] [A, B, C] [Node.h1 "参考文献"] cfg).2.blocks
        = [Block.pageBreakPar, Block.par (addHeading1 "参考文献")] ++
          (refSectionParagraphs [A, B, C]).map Block.par ∧
    (refSectionParagraphs [A, B, C]).map paragraphText
        = ["[1] " ++ A, "[2] " ++ B, "[3] " ++ C] := by
  constructor
  · rfl
  · rw [refSectionParagraphs_texts]
    show ["[" ++ toString (0 + 1) ++ "] " ++ A, "[" ++ toString (1 + 1) ++ "] " ++ B,
          "[" ++ toString (2 + 1) ++ "] " ++ C] = _
    rw [show ("[" ++ toString (0 + 1) ++ "] " : String) = "[1] " from rfl,
        show ("[" ++ toString (1 + 1) ++ "] " : String) = "[2] " from rfl,
        show ("[" ++ toString (2 + 1) ++ "] " : String) = "[3] " from rfl]

/-- C5, counterexample: the paragraphs produced by the reference drain do
NOT carry the hanging indent the claim describes: their left indent is
unset, not 0.7 centimeters, and their first-line indent is positive. -/
theorem C5_counterexample :
    ¬ ∀ p ∈ refSectionParagraphs ["A"],
        p.leftIndentCm = some (7 / 10) ∧
        p.firstLineIndentCm = some (-(7 / 10)) := by
  intro hall
  have h := hall (addStyledParagraph true false none FONT_SONGTI
    FONT_TIMES_NEW_ROMAN SIZE_SMALL_FOUR false Alignment.left (some (7 / 10))
    "[1] A") (List.Mem.head _)
  have h2 : (none : Option ℚ) = some (7 / 10) := h.1
  exact Option.noConfusion h2

/-- C5, amended: every paragraph emitted by the reference drain has a
positive first-line indent of 0.7 centimeters and no left indent, so there
is no hanging indent on the drained reference section; the hanging layout
of left indent 0.7 and first-line indent minus 0.7 centimeters is applied
only to footnote-definition list items rendered from the body. -/
theorem C5_theorem (refs : List String) (p : Paragraph) (n b : String)
    (hp : p ∈ refSectionParagraphs refs) :
    p.firstLineIndentCm = some (7 / 10) ∧ p.leftIndentCm = none ∧
    (footnoteDefListItemParagraph n b).leftIndentCm = some (7 / 10) ∧
    (footnoteDefListItemParagraph n b).firstLineIndentCm = some (-(7 / 10)) := by
  obtain ⟨ir, _, rfl⟩ := List.mem_map.mp hp
  refine ⟨?_, rfl, rfl, rfl⟩
  show (if (7 / 10 : ℚ) = 0 then (none : Option ℚ) else some (7 / 10))
    = some (7 / 10)
  rw [if_neg (by norm_num)]

/-- C5, witness: the amended statement evaluated on a one-entry reference
list and on a concrete footnote-definition list item. -/
theorem C5_witness :
    ((addStyledParagraph true false none FONT_SONGTI FONT_TIMES_NEW_ROMAN
        SIZE_SMALL_FOUR false Alignment.left (some (7 / 10)) "[1] A")
      ∈ refSectionParagraphs ["A"]) ∧
    (addStyledParagraph true false none FONT_SONGTI FONT_TIMES_NEW_ROMAN
        SIZE_SMALL_FOUR false Alignment.left (some (7 / 10))
        "[1] A").firstLineIndentCm = some (7 / 10) ∧
    (addStyledParagraph true false none FONT_SONGTI FONT_TIMES_NEW_ROMAN
        SIZE_SMALL_FOUR false Alignment.left (some (7 / 10))
        "[1] A").leftIndentCm = none ∧
    (footnoteDefListItemParagraph "2" "B").leftIndentCm = some (7 / 10) ∧
    (footnoteDefListItemParagraph "2" "B").firstLineIndentCm
      = some (-(7 / 10)) := by
  have hp : (addStyledParagraph true false none FONT_SONGTI FONT_TIMES_NEW_ROMAN
      SIZE_SMALL_FOUR false Alignment.left (some (7 / 10)) "[1] A")
      ∈ refSectionParagraphs ["A"] := List.Mem.head _
  have h := C5_theorem ["A"] _ "2" "B" hp
  exact ⟨hp, h.1, h.2.1, h.2.2.1, h.2.2.2⟩

/-- C6, counterexample: when the conversion raises, the driver catches the
exception and logs the trace, but the process exits with status ZERO, not
with the non-zero status the claim requires, because the except block of
lines 895 to 898 of the source never calls exit. -/
theorem C6_counterexample :
    (mainDriver true true true).printedTrace = true ∧
    (mainDriver true true true).exitCode = 0 := by decide

/-- C6, amended: every exception raised by the conversion is caught at top
level with a full trace logged, and the process then terminates with exit
status zero; only the missing-input-file check reports its error and exits
non-zero. -/
theorem C6_theorem :
    ∀ r : Bool,
      (mainDriver true true r).exitCode = 0 ∧
      (mainDriver true true r).printedTrace = r ∧
      (mainDriver true true r).failedAtImportUncaught = false ∧
      (mainDriver true false r).exitCode = 1 ∧
      (mainDriver true false r).printedMissingInputError = true := by decide

/-- C7, counterexample: a failing diagram block whose caption holds a
citation-shaped bracket directly after script text produces a placeholder
paragraph whose rendered text drops the space after the marker, so the
extracted caption is NOT contained in the emitted paragraph text, while
the claim demands a placeholder containing the caption for every failing
block. -/
theorem C7_counterexample :
    (processMermaidRender RenderOutcome.calledProcessError "图3.1" "流程[1] 的图"
      "tmp1" []).1 =
      [Block.par (addStyledParagraph false false none FONT_SONGTI
        FONT_TIMES_NEW_ROMAN SIZE_SMALL_FOUR false Alignment.left none
        (mermaidFailureText "图3.1" "流程[1] 的图"))] ∧
    paragraphText (addStyledParagraph false false none FONT_SONGTI
        FONT_TIMES_NEW_ROMAN SIZE_SMALL_FOUR false Alignment.left none
        (mermaidFailureText "图3.1" "流程[1] 的图"))
      = "[Failed to render Mermaid diagram: 图3.1 流程[1]的图]" ∧
    listContainsSeg ("流程[1] 的图").toList
        ("[Failed to render Mermaid diagram: 图3.1 流程[1]的图]").toList = false :=
  ⟨rfl, by decide, by decide⟩

/-- C7, amended: for every failing renderer outcome the handler emits
exactly one placeholder paragraph built from the failure text holding the
extracted label and caption, and the temporary-file state after the
failure equals the state before the block: the mermaid source file is
removed by the finally block and no image file is created. The rendered
run texts of that paragraph concatenate back to the full failure text,
and hence contain the label and caption, whenever no segment of the
failure text is citation-shaped; a caption with an embedded marker right
after script text is truncated at the marker by the inline segmenter. -/
theorem C7_theorem (outcome : RenderOutcome) (figNum caption mmdName : String)
    (files : List String)
    (hfail : outcome ≠ RenderOutcome.ok)
    (hfresh : (mmdName ++ ".mmd") ∉ files) :
    (processMermaidRender outcome figNum caption mmdName files).2 = files ∧
    (processMermaidRender outcome figNum caption mmdName files).1 =
      [Block.par (addStyledParagraph false false none FONT_SONGTI
        FONT_TIMES_NEW_ROMAN SIZE_SMALL_FOUR false Alignment.left none
        (mermaidFailureText figNum caption))] ∧
    ((∀ part ∈ groupRuns isAsciiSym (mermaidFailureText figNum caption).toList,
        citationMatch part = none ∧ refMatchInText part = none) →
      paragraphText (addStyledParagraph false false none FONT_SONGTI
        FONT_TIMES_NEW_ROMAN SIZE_SMALL_FOUR false Alignment.left none
        (mermaidFailureText figNum caption)) = mermaidFailureText figNum caption) := by
  have herase := erase_append_singleton (mmdName ++ ".mmd") files hfresh
  refine ⟨?_, ?_, ?_⟩
  · cases outcome with
    | ok => exact absurd rfl hfail
    | calledProcessError => exact herase
    | timeoutExpired => exact herase
    | fileNotFound => exact herase
  · cases outcome with
    | ok => exact absurd rfl hfail
    | calledProcessError => rfl
    | timeoutExpired => rfl
    | fileNotFound => rfl
  · intro hseg
    exact addStyledParagraph_roundTrip false none FONT_SONGTI FONT_TIMES_NEW_ROMAN
      SIZE_SMALL_FOUR false Alignment.left none (mermaidFailureText figNum caption)
      (fun part hp => ⟨(hseg part hp).1, Or.inr (hseg part hp).2⟩)

/-- C7, witness: the amended statement evaluated on a renderer failing
with a non-zero exit, a concrete label and a benign caption, and an empty
temporary directory, with the inner round-trip condition discharged. -/
theorem C7_witness :
    (RenderOutcome.calledProcessError ≠ RenderOutcome.ok) ∧
    (("tmp1" ++ ".mmd") ∉ ([] : List String)) ∧
    (processMermaidRender RenderOutcome.calledProcessError "图3.1" "某功能流程图"
      "tmp1" []).2 = [] ∧
    (processMermaidRender RenderOutcome.calledProcessError "图3.1" "某功能流程图"
      "tmp1" []).1 =
      [Block.par (addStyledParagraph false false none FONT_SONGTI
        FONT_TIMES_NEW_ROMAN SIZE_SMALL_FOUR false Alignment.left none
        (mermaidFailureText "图3.1" "某功能流程图"))] ∧
    paragraphText (addStyledParagraph false false none FONT_SONGTI
        FONT_TIMES_NEW_ROMAN SIZE_SMALL_FOUR false Alignment.left none
        (mermaidFailureText "图3.1" "某功能流程图"))
      = mermaidFailureText "图3.1" "某功能流程图" := by
  have h := C7_theorem RenderOutcome.calledProcessError "图3.1" "某功能流程图"
    "tmp1" [] (by decide) (by simp)
  exact ⟨by decide, by simp, h.1, h.2.1, h.2.2 (by decide)⟩

/-- C8, confirmed: on the manuscript with one Chinese abstract block, one
English abstract block, one chapter heading and one references heading,
the output has exactly two sections; the finalizer clears the first
section header and footer, and the one subsequent section gets the
centered running-title header with a bottom border and the centered
dynamic page-number-field footer. -/
theorem C8_theorem (cfg A B : String) :
    ((conversionRun [] [A, B] manuscriptC8 cfg).2.sections).length = 2 ∧
    (conversionRun [] [A, B] manuscriptC8 cfg).2.sections
      = [clearedFirstSection, mainMatterSection cfg] ∧
    clearedFirstSection.headerText = none ∧
    clearedFirstSection.footerHasPageField = false ∧
    (mainMatterSection cfg).headerText = some cfg ∧
    (mainMatterSection cfg).headerCentered = true ∧
    (mainMatterSection cfg).headerBottomBorder = true ∧
    (mainMatterSection cfg).footerHasPageField = true ∧
    (mainMatterSection cfg).footerCentered = true :=
  ⟨rfl, rfl, rfl, rfl, rfl, rfl, rfl, rfl, rfl⟩

/-- C9, counterexample: running the same one-definition manuscript twice in
one process drains one entry in the first run but two entries in the
second, because the module-global reference list is never cleared, so the
two reference sections are not identical. -/
theorem C9_counterexample :
    ((conversionRun (conversionRun [] ["A"] [Node.h1 "参考文献"] "HDR").1 ["A"]
        [Node.h1 "参考文献"] "HDR").2.blocks.drop 2
      = (refSectionParagraphs ["A", "A"]).map Block.par) ∧
    ((conversionRun [] ["A"] [Node.h1 "参考文献"] "HDR").2.blocks.drop 2
      = (refSectionParagraphs ["A"]).map Block.par) ∧
    (refSectionParagraphs ["A", "A"]).map paragraphText = ["[1] A", "[2] A"] ∧
    (refSectionParagraphs ["A"]).map paragraphText = ["[1] A"] ∧
    (refSectionParagraphs ["A", "A"]).map paragraphText
      ≠ (refSectionParagraphs ["A"]).map paragraphText :=
  ⟨rfl, rfl, by decide, by decide, by decide⟩

/-- C9, amended: the collected reference list is a process-global that
survives the run: a conversion leaves the global list equal to its
previous content plus the newly harvested definitions, and the drain
renders that whole accumulated list, so a second conversion in the same
process does not reproduce the first reference section; runs are
independent only because the command-line driver performs exactly one
conversion per process. -/
theorem C9_theorem (g defs : List String) (elements : List Node) (cfg : String) :
    (conversionRun g defs elements cfg).1 = g ++ defs ∧
    (conversionRun g defs [Node.h1 "参考文献"] cfg).2.blocks.drop 2
      = (refSectionParagraphs (g ++ defs)).map Block.par :=
  ⟨rfl, rfl⟩

/-- C10, confirmed: when the configuration file is absent, the module-level
load raises before argument parsing and before the input-file existence
check, the process fails at import with a non-zero status, and the
missing-input-file error message is never produced, whatever the other
conditions. -/
theorem C10_theorem :
    ∀ (mdExists conversionRaises : Bool),
      (mainDriver false mdExists conversionRaises).failedAtImportUncaught = true ∧
      (mainDriver false mdExists conversionRaises).printedMissingInputError
        = false ∧
      (mainDriver false mdExists conversionRaises).exitCode = 1 := by decide

end M2A
